import Mathlib

set_option autoImplicit false

/-!
Shallow embedding of src/faculty180_to_drupal.py (Faculty-Data-Pipeline).

HTTP transport is modelled by an oracle of type Nat → ReqResult giving the
outcome of the i-th invocation of requests.request inside one call of
make_request_with_retry.  Functions that count their HTTP invocations return
the count as an extra component.  Python exceptions that the script does not
catch are modelled with Except: a value Except.error e means the Python
function raises e to its caller.
-/

namespace FacultyPipeline

/-- JSON values as produced by the Python json module. -/
inductive JSON where
  | null
  | bool (b : Bool)
  | num (n : Int)
  | str (s : String)
  | arr (elems : List JSON)
  | obj (entries : List (String × JSON))

/-- The Python exception kinds the script can raise or catch. -/
inductive PyExn where
  | requestException
  | jsonDecodeError
  | typeError
  | indexError
  | keyError
  | attributeError
deriving DecidableEq

/-- Abstraction of requests.Response: the status code, the body text, the
result of response.json() (none when the body is not valid JSON, in which
case response.json() raises json.JSONDecodeError), and the session cookies
delivered with the response. -/
structure Response where
  status : Nat
  text : String
  jsonV : Option JSON
  cookies : List (String × String)

/-- Outcome of one invocation of requests.request: either it raises a
requests.exceptions.RequestException (connection error, timeout, ...) or it
returns a Response. -/
inductive ReqResult where
  | exn
  | resp (r : Response)

-- Request timeout and retry settings (module constants, lines 33-35).
def REQUEST_TIMEOUT : Nat := 30
def MAX_RETRIES : Nat := 3
def RETRY_DELAY : Nat := 2

/-- Condition under which requests' Response.raise_for_status raises an
HTTPError (a RequestException): 4xx client errors and 5xx server errors. -/
def isErrStatus (status : Nat) : Bool :=
  decide (400 ≤ status) && decide (status < 600)

/-- Truth value of a requests.Response in a boolean context: Python defines
bool(response) as response.ok, true exactly when status_code < 400. -/
def respOk (r : Response) : Bool := decide (r.status < 400)

/-- Python str.strip() with no argument: remove leading and trailing
whitespace characters. -/
def pyStrip (s : String) : String :=
  String.mk (((s.data.dropWhile Char.isWhitespace).reverse.dropWhile
    Char.isWhitespace).reverse)

/-- The attempt loop of make_request_with_retry (lines 55-66): attempt is
the current 0-based index of the range loop, remaining the number of loop
iterations still available.  A response whose raise_for_status raises is
caught by the except clause just like a network error.  Returns the result
of the function together with the number of invocations of
requests.request that were made. -/
def retryLoop (transport : Nat → ReqResult) : Nat → Nat → Option Response × Nat
  | _, 0 => (none, 0)
  | attempt, remaining + 1 =>
    match transport attempt with
    | ReqResult.exn =>
      let p := retryLoop transport (attempt + 1) remaining
      (p.1, p.2 + 1)
    | ReqResult.resp r =>
      if isErrStatus r.status then
        let p := retryLoop transport (attempt + 1) remaining
        (p.1, p.2 + 1)
      else
        (some r, 1)

/-- make_request_with_retry (lines 53-66): up to MAX_RETRIES attempts, the
sentinel None on exhaustion.  The second component counts the invocations
of requests.request. -/
def make_request_with_retry (transport : Nat → ReqResult) : Option Response × Nat :=
  retryLoop transport 0 MAX_RETRIES

/-- The i-th invocation of requests.request fails: it raises, or it returns
a response on which raise_for_status raises. -/
def failsAt (transport : Nat → ReqResult) (i : Nat) : Bool :=
  match transport i with
  | ReqResult.exn => true
  | ReqResult.resp r => isErrStatus r.status

theorem failsAt_of_exn {t : Nat → ReqResult} {i : Nat} (h : t i = ReqResult.exn) :
    failsAt t i = true := by
  unfold failsAt
  rw [h]

theorem failsAt_of_resp {t : Nat → ReqResult} {i : Nat} {r : Response}
    (h : t i = ReqResult.resp r) : failsAt t i = isErrStatus r.status := by
  unfold failsAt
  rw [h]

theorem retryLoop_succ_exn {t : Nat → ReqResult} {attempt n : Nat}
    (h : t attempt = ReqResult.exn) :
    retryLoop t attempt (n + 1) =
      ((retryLoop t (attempt + 1) n).1, (retryLoop t (attempt + 1) n).2 + 1) := by
  simp only [retryLoop, h]

theorem retryLoop_succ_err {t : Nat → ReqResult} {attempt n : Nat} {r : Response}
    (h : t attempt = ReqResult.resp r) (he : isErrStatus r.status = true) :
    retryLoop t attempt (n + 1) =
      ((retryLoop t (attempt + 1) n).1, (retryLoop t (attempt + 1) n).2 + 1) := by
  simp only [retryLoop, h, he, if_true]

theorem retryLoop_succ_ok {t : Nat → ReqResult} {attempt n : Nat} {r : Response}
    (h : t attempt = ReqResult.resp r) (he : isErrStatus r.status = false) :
    retryLoop t attempt (n + 1) = (some r, 1) := by
  simp only [retryLoop, h, he, Bool.false_eq_true, if_false]

theorem retryLoop_succ_fail {t : Nat → ReqResult} {attempt n : Nat}
    (h : failsAt t attempt = true) :
    retryLoop t attempt (n + 1) =
      ((retryLoop t (attempt + 1) n).1, (retryLoop t (attempt + 1) n).2 + 1) := by
  cases ht : t attempt with
  | exn => exact retryLoop_succ_exn ht
  | resp r =>
    rw [failsAt_of_resp ht] at h
    exact retryLoop_succ_err ht h

theorem retryLoop_all_fail (t : Nat → ReqResult) :
    ∀ remaining attempt,
      (∀ i, attempt ≤ i → i < attempt + remaining → failsAt t i = true) →
      retryLoop t attempt remaining = (none, remaining) := by
  intro remaining
  induction remaining with
  | zero => intro attempt _; rfl
  | succ n ih =>
    intro attempt h
    have h0 : failsAt t attempt = true := h attempt le_rfl (by omega)
    have hrec := ih (attempt + 1) (fun i h1 h2 => h i (by omega) (by omega))
    rw [retryLoop_succ_fail h0, hrec]

theorem retryLoop_success (t : Nat → ReqResult) :
    ∀ remaining attempt j r, attempt ≤ j → j < attempt + remaining →
      (∀ i, attempt ≤ i → i < j → failsAt t i = true) →
      t j = ReqResult.resp r → isErrStatus r.status = false →
      retryLoop t attempt remaining = (some r, j - attempt + 1) := by
  intro remaining
  induction remaining with
  | zero => intro attempt j r h1 h2 _ _ _; omega
  | succ n ih =>
    intro attempt j r h1 h2 hf hj hs
    rcases Nat.eq_or_lt_of_le h1 with heq | hlt
    · subst heq
      rw [retryLoop_succ_ok hj hs]
      simp
    · have h0 : failsAt t attempt = true := hf attempt le_rfl hlt
      have hrec := ih (attempt + 1) j r (by omega) (by omega)
        (fun i ha hb => hf i (by omega) hb) hj hs
      rw [retryLoop_succ_fail h0, hrec]
      have : j - (attempt + 1) + 1 + 1 = j - attempt + 1 := by omega
      rw [this]

theorem retryLoop_status_lt (t : Nat → ReqResult)
    (hvalid : ∀ i r, t i = ReqResult.resp r → r.status < 600) :
    ∀ remaining attempt r, (retryLoop t attempt remaining).1 = some r →
      r.status < 400 := by
  intro remaining
  induction remaining with
  | zero => intro attempt r h; simp [retryLoop] at h
  | succ n ih =>
    intro attempt r h
    cases ht : t attempt with
    | exn =>
      rw [retryLoop_succ_exn ht] at h
      exact ih (attempt + 1) r h
    | resp r2 =>
      by_cases he : isErrStatus r2.status = true
      · rw [retryLoop_succ_err ht he] at h
        exact ih (attempt + 1) r h
      · have hff : isErrStatus r2.status = false := by
          cases hb : isErrStatus r2.status
          · rfl
          · exact absurd hb he
        rw [retryLoop_succ_ok ht hff] at h
        simp only [Option.some.injEq] at h
        rw [← h]
        have h600 := hvalid attempt r2 ht
        have hna : ¬(400 ≤ r2.status ∧ r2.status < 600) := by
          intro hc
          apply absurd hff
          simp [isErrStatus, hc.1, hc.2]
        omega

/-- C1: a call failing on every attempt makes make_request_with_retry invoke
the underlying HTTP call exactly MAX_RETRIES times and return the sentinel
None; a call first succeeding on attempt k with k ≤ MAX_RETRIES is invoked
exactly k times and the successful response is returned. -/
theorem retry_call_count_spec (t : Nat → ReqResult) :
    ((∀ i, i < MAX_RETRIES → failsAt t i = true) →
        make_request_with_retry t = (none, MAX_RETRIES))
  ∧ (∀ k r, 1 ≤ k → k ≤ MAX_RETRIES →
        (∀ i, i < k - 1 → failsAt t i = true) →
        t (k - 1) = ReqResult.resp r → isErrStatus r.status = false →
        make_request_with_retry t = (some r, k)) := by
  constructor
  · intro h
    exact retryLoop_all_fail t MAX_RETRIES 0 (fun i _ h2 => h i (by omega))
  · intro k r hk1 hk2 hf hs he
    have := retryLoop_success t MAX_RETRIES 0 (k - 1) r (by omega) (by omega)
      (fun i _ h2 => hf i h2) hs he
    rw [make_request_with_retry, this]
    congr 1
    omega

def exResp : Response := ⟨200, "ok", none, []⟩

def exT : Nat → ReqResult := fun i => if i = 0 then ReqResult.exn else ReqResult.resp exResp

theorem retry_call_count_spec_witness :
    make_request_with_retry exT = (some exResp, 2) :=
  (retry_call_count_spec exT).2 2 exResp (by decide) (by decide)
    (fun i hi => by
      have : i = 0 := by omega
      subst this
      rfl)
    rfl rfl

/-- C9: make_request_with_retry never hands back a response with a 4xx or
5xx status: assuming the transport only produces well-formed HTTP statuses
(below 600), the result is either the sentinel None or a response on which
raise_for_status raised no error, hence with status below 400. -/
theorem retry_never_returns_error_status (t : Nat → ReqResult)
    (hvalid : ∀ i r, t i = ReqResult.resp r → r.status < 600) :
    (make_request_with_retry t).1 = none ∨
      ∃ r, (make_request_with_retry t).1 = some r ∧ r.status < 400 := by
  cases h : (make_request_with_retry t).1 with
  | none => exact Or.inl rfl
  | some r =>
    exact Or.inr ⟨r, rfl, retryLoop_status_lt t hvalid MAX_RETRIES 0 r h⟩

def exBadT : Nat → ReqResult := fun i =>
  if i = 0 then ReqResult.resp ⟨503, "unavailable", none, []⟩
  else ReqResult.resp exResp

theorem retry_never_returns_error_status_witness :
    (make_request_with_retry exBadT).1 = none ∨
      ∃ r, (make_request_with_retry exBadT).1 = some r ∧ r.status < 400 :=
  retry_never_returns_error_status exBadT
    (fun i r h => by
      unfold exBadT at h
      by_cases hi : i = 0
      · rw [if_pos hi] at h
        cases h
        decide
      · rw [if_neg hi] at h
        cases h
        decide)

/-- Lookup of a key in a Python dict represented as its insertion-ordered
list of entries (keys are distinct in a dict, so the first hit decides). -/
def lookupKey (k : String) : List (String × JSON) → Option JSON
  | [] => none
  | (k2, v) :: rest => if k2 = k then some v else lookupKey k rest

/-- Truth value of a Python object decoded from JSON: None, False, 0, the
empty string, the empty list and the empty dict are falsy. -/
def jsonTruthy : JSON → Bool
  | JSON.null => false
  | JSON.bool b => b
  | JSON.num n => decide (n ≠ 0)
  | JSON.str s => decide (s ≠ "")
  | JSON.arr elems => !elems.isEmpty
  | JSON.obj entries => !entries.isEmpty

/-- Truth value of the result of dict.get: None (missing key) is falsy. -/
def truthyOpt : Option JSON → Bool
  | none => false
  | some v => jsonTruthy v

/-- Truth value of an os.getenv result: None and the empty string are
falsy. -/
def strTruthy : Option String → Bool
  | none => false
  | some s => decide (s ≠ "")

/-- Python len() of a JSON-decoded value: lists, dicts and strings are
sized; numbers, booleans and None raise TypeError. -/
def pyLen : JSON → Except PyExn Nat
  | JSON.arr elems => Except.ok elems.length
  | JSON.obj entries => Except.ok entries.length
  | JSON.str s => Except.ok s.length
  | _ => Except.error PyExn.typeError

/-- The environment variables the script reads (lines 19-25).
DRUPAL_CONTENT_TYPE has a default and is modelled by its resolved value. -/
structure Env where
  FACULTY_API_TOKEN : Option String
  DRUPAL_USERNAME : Option String
  DRUPAL_PASSWORD : Option String
  DRUPAL_CONTENT_TYPE : String

/-- validate_config (lines 38-50): true exactly when no required variable
is missing (None or empty string). -/
def validate_config (env : Env) : Bool :=
  strTruthy env.FACULTY_API_TOKEN && strTruthy env.DRUPAL_USERNAME &&
    strTruthy env.DRUPAL_PASSWORD

/-- get_faculty_data (lines 69-88).  The token guard at line 71 reads
FACULTY_API_TOKEN; the transport oracle stands for the GET against
FACULTY_API_URL.  The json.JSONDecodeError of response.json() is caught
and yields []; the TypeError that len() raises on an unsized value inside
the log f-string at line 83 is not caught and propagates. -/
def get_faculty_data (token : Option String) (transport : Nat → ReqResult) :
    Except PyExn (List JSON) :=
  if !strTruthy token then Except.ok []
  else
    match (make_request_with_retry transport).1 with
    | some response =>
      if respOk response then
        match response.jsonV with
        | none => Except.ok []
        | some data =>
          match pyLen data with
          | Except.error e => Except.error e
          | Except.ok _ =>
            match data with
            | JSON.arr elems => Except.ok elems
            | _ => Except.ok [data]
      else Except.ok []
    | none => Except.ok []

/-- authenticate_drupal (lines 91-119): Step 1 POSTs the credentials to
DRUPAL_LOGIN_URL (oracle loginT), Step 2 GETs DRUPAL_TOKEN_URL with the
session cookies (oracle tokenT); the sentinel None or a falsy response at
either step aborts with (None, None); otherwise the stripped token text
and the login cookies are returned. -/
def authenticate_drupal (loginT tokenT : Nat → ReqResult) :
    Option String × Option (List (String × String)) :=
  match (make_request_with_retry loginT).1 with
  | none => (none, none)
  | some response =>
    if respOk response then
      let cookies := response.cookies
      match (make_request_with_retry tokenT).1 with
      | none => (none, none)
      | some tokenResponse =>
        if respOk tokenResponse then
          (some (pyStrip tokenResponse.text), some cookies)
        else (none, none)
    else (none, none)

/-- validate_faculty_data (lines 122-130): the only required field is
name; a missing or falsy value rejects the record. -/
def validate_faculty_data (faculty : String → Option JSON) : Bool :=
  truthyOpt (faculty "name")

/-- The static field mapping of lines 153-159, in insertion order. -/
def field_mapping : List (String × String) :=
  [("email", "field_email"), ("phone", "field_phone"),
   ("department", "field_department"), ("title", "field_job_title"),
   ("office", "field_office_location")]

/-- The node_data dict built at lines 139-163 of create_drupal_node,
represented as its insertion-ordered entry list: type, title and status
first, then body when bio is truthy, then one entry per truthy mapped
field in the iteration order of field_mapping.  All keys are distinct, so
the entry list determines the dict. -/
def build_node_data (contentType : String) (faculty : String → Option JSON) :
    List (String × JSON) :=
  let base := [
    ("type", JSON.arr [JSON.obj [("target_id", JSON.str contentType)]]),
    ("title", JSON.arr [JSON.obj
      [("value", (faculty "name").getD (JSON.str "Unknown Faculty"))]]),
    ("status", JSON.arr [JSON.obj [("value", JSON.bool true)]])]
  let withBody :=
    if truthyOpt (faculty "bio") then
      base ++ [("body", JSON.arr [JSON.obj
        [("value", (faculty "bio").getD JSON.null),
         ("format", JSON.str "basic_html")]])]
    else base
  field_mapping.foldl (fun acc p =>
    if truthyOpt (faculty p.1) then
      acc ++ [(p.2, JSON.arr [JSON.obj [("value", (faculty p.1).getD JSON.null)]])]
    else acc) withBody

/-- Python subscript v[0] on a JSON-decoded value: first element of a list
(IndexError when empty), first character of a string (IndexError when
empty), KeyError on a dict decoded from JSON (its keys are strings, never
the integer 0), TypeError on numbers, booleans and None. -/
def pyIndex0 : JSON → Except PyExn JSON
  | JSON.arr [] => Except.error PyExn.indexError
  | JSON.arr (x :: _) => Except.ok x
  | JSON.str s =>
    match s.data with
    | [] => Except.error PyExn.indexError
    | c :: _ => Except.ok (JSON.str (String.mk [c]))
  | JSON.obj _ => Except.error PyExn.keyError
  | _ => Except.error PyExn.typeError

/-- The identifier extraction of line 175: response.json() followed by
.get of nid with a one-empty-dict default, subscript 0, then .get of
value.  A body that is not valid JSON raises json.JSONDecodeError; a
top-level value that is not a dict has no .get and raises AttributeError;
a present but empty nid list raises IndexError at the subscript; the
default makes a missing nid yield None without raising. -/
def extract_nid (response : Response) : Except PyExn (Option JSON) :=
  match response.jsonV with
  | none => Except.error PyExn.jsonDecodeError
  | some data =>
    match data with
    | JSON.obj entries =>
      match pyIndex0 ((lookupKey "nid" entries).getD (JSON.arr [JSON.obj []])) with
      | Except.error e => Except.error e
      | Except.ok first =>
        match first with
        | JSON.obj fentries => Except.ok (lookupKey "value" fentries)
        | _ => Except.error PyExn.attributeError
    | _ => Except.error PyExn.attributeError

/-- create_drupal_node (lines 133-181).  The transport oracle stands for
the POST of the build_node_data payload to DRUPAL_NODE_URL with the CSRF
token header and the session cookies attached.  Returns the boolean result
of the function, or the uncaught exception of the identifier extraction at
line 175, together with the number of HTTP invocations made for this
record. -/
def create_drupal_node (contentType : String) (faculty : String → Option JSON)
    (transport : Nat → ReqResult) : Except PyExn Bool × Nat :=
  if !validate_faculty_data faculty then (Except.ok false, 0)
  else
    let _nodeData := build_node_data contentType faculty
    let result := make_request_with_retry transport
    match result.1 with
    | some response =>
      if respOk response && response.status == 201 then
        match extract_nid response with
        | Except.error e => (Except.error e, result.2)
        | Except.ok _ => (Except.ok true, result.2)
      else (Except.ok false, result.2)
    | none => (Except.ok false, result.2)

/-- Outcome of one run of main: an abort before the per-record loop, a
completed run with its successes/total report, or a crash by an uncaught
exception. -/
inductive RunOutcome where
  | configAbort
  | noDataAbort
  | authAbort
  | completed (successes total : Nat)
  | crashed (e : PyExn)

/-- The per-record loop of main (lines 209-217).  nodeT gives record i its
transport oracle.  Returns the success count, or the exception a record
raised (which aborts the loop and propagates), together with the total
number of node-creation HTTP invocations.  A record that is not a dict
raises AttributeError at its first .get (the progress log of line 210)
before any HTTP call. -/
def recordsLoop (contentType : String) (nodeT : Nat → Nat → ReqResult) :
    Nat → List JSON → Except PyExn Nat × Nat
  | _, [] => (Except.ok 0, 0)
  | i, faculty :: rest =>
    match faculty with
    | JSON.obj entries =>
      let step := create_drupal_node contentType (fun k => lookupKey k entries) (nodeT i)
      match step.1 with
      | Except.error e => (Except.error e, step.2)
      | Except.ok b =>
        let restResult := recordsLoop contentType nodeT (i + 1) rest
        match restResult.1 with
        | Except.error e => (Except.error e, step.2 + restResult.2)
        | Except.ok s => (Except.ok ((if b then 1 else 0) + s), step.2 + restResult.2)
    | _ => (Except.error PyExn.attributeError, 0)

/-- The transport oracles of one run: one for the faculty GET, one for
each of the two authentication calls, and one per record index for the
node-creation POSTs. -/
structure World where
  facultyT : Nat → ReqResult
  loginT : Nat → ReqResult
  tokenT : Nat → ReqResult
  nodeT : Nat → Nat → ReqResult

/-- main (lines 184-219): config validation, source fetch, authentication,
then the per-record loop.  The second component counts node-creation HTTP
invocations across the whole run. -/
def main (env : Env) (w : World) : RunOutcome × Nat :=
  if !validate_config env then (RunOutcome.configAbort, 0)
  else
    match get_faculty_data env.FACULTY_API_TOKEN w.facultyT with
    | Except.error e => (RunOutcome.crashed e, 0)
    | Except.ok facultyList =>
      if facultyList.isEmpty then (RunOutcome.noDataAbort, 0)
      else
        match (authenticate_drupal w.loginT w.tokenT).1 with
        | none => (RunOutcome.authAbort, 0)
        | some csrfToken =>
          if csrfToken = "" then (RunOutcome.authAbort, 0)
          else
            let run := recordsLoop env.DRUPAL_CONTENT_TYPE w.nodeT 0 facultyList
            match run.1 with
            | Except.error e => (RunOutcome.crashed e, run.2)
            | Except.ok successCount =>
              (RunOutcome.completed successCount facultyList.length, run.2)

/-- The process exit code of running the script (lines 222-223): main
contains no sys.exit, so a normal return exits 0; an uncaught exception
terminates the interpreter with exit code 1. -/
def exit_code (env : Env) (w : World) : Nat :=
  match (main env w).1 with
  | RunOutcome.crashed _ => 1
  | _ => 0

-- Concrete inputs shared by witnesses and counterexamples.

def janeEntries : List (String × JSON) := [("name", JSON.str "Jane Doe")]

def johnEntries : List (String × JSON) := [("name", JSON.str "John Roe")]

def envOk : Env := ⟨some "token", some "admin", some "pw", "faculty_profile"⟩

def envMissing : Env := ⟨none, none, none, "faculty_profile"⟩

def wTrivial : World :=
  ⟨fun _ => ReqResult.exn, fun _ => ReqResult.exn,
   fun _ => ReqResult.exn, fun _ _ => ReqResult.exn⟩

def facultyListResp : Response :=
  ⟨200, "two records", some (JSON.arr [JSON.obj janeEntries, JSON.obj johnEntries]), []⟩

def loginResp : Response := ⟨200, "login ok", none, [("SESS", "abc")]⟩

def tokenResp : Response := ⟨200, "csrf-token", none, []⟩

def nidEmptyResp : Response :=
  ⟨201, "created", some (JSON.obj [("nid", JSON.arr [])]), []⟩

def badBodyResp : Response := ⟨201, "not json", none, []⟩

def goodCreateResp : Response :=
  ⟨201, "created", some (JSON.obj [("nid", JSON.arr [JSON.obj [("value", JSON.str "42")]])]), []⟩

def scalarResp : Response := ⟨200, "42", some (JSON.num 42), []⟩

def wNidEmpty : World :=
  ⟨fun _ => ReqResult.resp facultyListResp, fun _ => ReqResult.resp loginResp,
   fun _ => ReqResult.resp tokenResp,
   fun i _ => if i = 0 then ReqResult.resp nidEmptyResp else ReqResult.resp goodCreateResp⟩

/-- C2: the claim matches the spec, but the code violates it.  A
node-creation POST answered 201 with a body whose nid list is empty makes
create_drupal_node raise an uncaught IndexError at the identifier
extraction instead of reporting success, and in a run with a second record
pending the exception aborts the whole batch: main crashes after the first
record and never reaches the second. -/
theorem created_node_unparsable_nid_crashes :
    create_drupal_node "faculty_profile" (fun k => lookupKey k janeEntries)
        (fun _ => ReqResult.resp nidEmptyResp)
      = (Except.error PyExn.indexError, 1)
  ∧ main envOk wNidEmpty = (RunOutcome.crashed PyExn.indexError, 1) :=
  ⟨rfl, rfl⟩

/-- C3 as stated is false: with a required configuration variable missing
the run terminates before the per-record phase, but the process exit code
is 0, not non-zero. -/
theorem preflight_nonzero_exit_counterexample :
    validate_config envMissing = false
  ∧ main envMissing wTrivial = (RunOutcome.configAbort, 0)
  ∧ exit_code envMissing wTrivial = 0 :=
  ⟨rfl, rfl, rfl⟩

/-- C3 amended: every pre-flight failure (configuration validation, a
fetch yielding no records, failed authentication) terminates the run
before the per-record phase with no node-creation call, but the process
exit code is 0 — the script never exits non-zero on an abort; and a
completed run also exits 0 regardless of per-record failures. -/
theorem preflight_abort_before_records_exits_zero (env : Env) (w : World) :
    (validate_config env = false →
      main env w = (RunOutcome.configAbort, 0) ∧ exit_code env w = 0)
  ∧ (validate_config env = true →
      get_faculty_data env.FACULTY_API_TOKEN w.facultyT = Except.ok [] →
      main env w = (RunOutcome.noDataAbort, 0) ∧ exit_code env w = 0)
  ∧ (∀ fl, validate_config env = true →
      get_faculty_data env.FACULTY_API_TOKEN w.facultyT = Except.ok fl →
      fl ≠ [] → (authenticate_drupal w.loginT w.tokenT).1 = none →
      main env w = (RunOutcome.authAbort, 0) ∧ exit_code env w = 0)
  ∧ (∀ s tot, (main env w).1 = RunOutcome.completed s tot →
      exit_code env w = 0) := by
  refine ⟨?_, ?_, ?_, ?_⟩
  · intro h
    have hm : main env w = (RunOutcome.configAbort, 0) := by
      unfold main
      rw [h]
      rfl
    exact ⟨hm, by unfold exit_code; rw [hm]⟩
  · intro h hdata
    have hm : main env w = (RunOutcome.noDataAbort, 0) := by
      unfold main
      rw [h, hdata]
      rfl
    exact ⟨hm, by unfold exit_code; rw [hm]⟩
  · intro fl h hdata hne hauth
    have hemp : fl.isEmpty = false := by
      cases fl with
      | nil => exact absurd rfl hne
      | cons a l => rfl
    have hm : main env w = (RunOutcome.authAbort, 0) := by
      simp only [main, h, hdata, hemp, hauth, Bool.not_true, Bool.false_eq_true,
        if_false]
    exact ⟨hm, by unfold exit_code; rw [hm]⟩
  · intro s tot h
    unfold exit_code
    rw [h]

theorem preflight_abort_before_records_exits_zero_witness :
    main envMissing wTrivial = (RunOutcome.configAbort, 0)
  ∧ exit_code envMissing wTrivial = 0 :=
  (preflight_abort_before_records_exits_zero envMissing wTrivial).1 rfl

/-- C4 as stated is false: a POST answered with status exactly 201 whose
body is not valid JSON does not make create_drupal_node report success for
the record — the identifier extraction raises an uncaught
json.JSONDecodeError instead. -/
theorem success_iff_201_counterexample :
    badBodyResp.status = 201
  ∧ create_drupal_node "faculty_profile" (fun k => lookupKey k janeEntries)
        (fun _ => ReqResult.resp badBodyResp)
      = (Except.error PyExn.jsonDecodeError, 1) :=
  ⟨rfl, rfl⟩

theorem create_node_eq_invalid {ct : String} {f : String → Option JSON}
    {t : Nat → ReqResult} (h : validate_faculty_data f = false) :
    create_drupal_node ct f t = (Except.ok false, 0) := by
  simp only [create_drupal_node, h, Bool.not_false, if_true]

theorem create_node_eq_none {ct : String} {f : String → Option JSON}
    {t : Nat → ReqResult} (hv : validate_faculty_data f = true)
    (h : (make_request_with_retry t).1 = none) :
    create_drupal_node ct f t = (Except.ok false, (make_request_with_retry t).2) := by
  simp only [create_drupal_node, hv, Bool.not_true, Bool.false_eq_true, if_false, h]

theorem create_node_eq_not201 {ct : String} {f : String → Option JSON}
    {t : Nat → ReqResult} {r : Response} (hv : validate_faculty_data f = true)
    (h : (make_request_with_retry t).1 = some r)
    (hc : (respOk r && r.status == 201) = false) :
    create_drupal_node ct f t = (Except.ok false, (make_request_with_retry t).2) := by
  simp only [create_drupal_node, hv, Bool.not_true, Bool.false_eq_true, if_false, h, hc]

theorem create_node_eq_201_err {ct : String} {f : String → Option JSON}
    {t : Nat → ReqResult} {r : Response} {e : PyExn}
    (hv : validate_faculty_data f = true)
    (h : (make_request_with_retry t).1 = some r)
    (hc : (respOk r && r.status == 201) = true)
    (he : extract_nid r = Except.error e) :
    create_drupal_node ct f t = (Except.error e, (make_request_with_retry t).2) := by
  simp only [create_drupal_node, hv, Bool.not_true, Bool.false_eq_true, if_false, h,
    hc, if_true, he]

theorem create_node_eq_201_ok {ct : String} {f : String → Option JSON}
    {t : Nat → ReqResult} {r : Response} {v : Option JSON}
    (hv : validate_faculty_data f = true)
    (h : (make_request_with_retry t).1 = some r)
    (hc : (respOk r && r.status == 201) = true)
    (he : extract_nid r = Except.ok v) :
    create_drupal_node ct f t = (Except.ok true, (make_request_with_retry t).2) := by
  simp only [create_drupal_node, hv, Bool.not_true, Bool.false_eq_true, if_false, h,
    hc, if_true, he]

/-- C4 amended: create_drupal_node reports success only for a response
with status exactly 201 whose identifier extraction does not raise; a
response with any other status (including 200) and the sentinel None are
always reported as failure; a 201 response with an unextractable
identifier raises instead of returning. -/
theorem create_node_success_only_201 (contentType : String)
    (faculty : String → Option JSON) (transport : Nat → ReqResult) :
    ((create_drupal_node contentType faculty transport).1 = Except.ok true →
      ∃ r, (make_request_with_retry transport).1 = some r ∧ r.status = 201 ∧
        ∃ v, extract_nid r = Except.ok v)
  ∧ (∀ r, (make_request_with_retry transport).1 = some r → r.status ≠ 201 →
      (create_drupal_node contentType faculty transport).1 = Except.ok false)
  ∧ ((make_request_with_retry transport).1 = none →
      (create_drupal_node contentType faculty transport).1 = Except.ok false) := by
  refine ⟨?_, ?_, ?_⟩
  · intro h
    cases hb : validate_faculty_data faculty with
    | false =>
      rw [create_node_eq_invalid hb] at h
      simp at h
    | true =>
      cases hr : (make_request_with_retry transport).1 with
      | none =>
        rw [create_node_eq_none hb hr] at h
        simp at h
      | some r =>
        cases hc : (respOk r && r.status == 201) with
        | false =>
          rw [create_node_eq_not201 hb hr hc] at h
          simp at h
        | true =>
          have h201 : r.status = 201 := eq_of_beq ((Bool.and_eq_true _ _).mp hc).2
          cases he : extract_nid r with
          | error e =>
            rw [create_node_eq_201_err hb hr hc he] at h
            simp at h
          | ok v => exact ⟨r, rfl, h201, v, he⟩
  · intro r hr hne
    cases hb : validate_faculty_data faculty with
    | false => rw [create_node_eq_invalid hb]
    | true =>
      have hc : (respOk r && r.status == 201) = false := by
        have hb2 : (r.status == 201) = false := beq_eq_false_iff_ne.mpr hne
        rw [hb2, Bool.and_false]
      rw [create_node_eq_not201 hb hr hc]
  · intro hr
    cases hb : validate_faculty_data faculty with
    | false => rw [create_node_eq_invalid hb]
    | true => rw [create_node_eq_none hb hr]

theorem create_node_success_only_201_witness :
    (create_drupal_node "faculty_profile" (fun k => lookupKey k janeEntries)
        (fun _ => ReqResult.exn)).1 = Except.ok false :=
  (create_node_success_only_201 "faculty_profile"
    (fun k => lookupKey k janeEntries) (fun _ => ReqResult.exn)).2.2 rfl

/-- C6 as stated is false: a successful fetch whose body is the JSON
number 42 makes get_faculty_data raise an uncaught TypeError (len() of an
unsized value in the log line) instead of returning a list. -/
theorem faculty_data_always_list_counterexample :
    get_faculty_data (some "token") (fun _ => ReqResult.resp scalarResp)
      = Except.error PyExn.typeError :=
  rfl

/-- C6 amended: with the token configured, a fetched body parsing to a
JSON list is returned as that list, a body parsing to a single JSON object
is wrapped in a one-element list, an unparsable body yields the empty
list, and retry exhaustion yields the empty list; but a body parsing to a
number, boolean or null raises an uncaught TypeError instead of returning
a list. -/
theorem faculty_data_list_cases (token : Option String) (t : Nat → ReqResult)
    (htok : strTruthy token = true) :
    (∀ r, (make_request_with_retry t).1 = some r → r.status < 400 →
        (∀ elems, r.jsonV = some (JSON.arr elems) →
          get_faculty_data token t = Except.ok elems)
      ∧ (∀ entries, r.jsonV = some (JSON.obj entries) →
          get_faculty_data token t = Except.ok [JSON.obj entries])
      ∧ (r.jsonV = none → get_faculty_data token t = Except.ok []))
  ∧ ((make_request_with_retry t).1 = none →
      get_faculty_data token t = Except.ok []) := by
  constructor
  · intro r hr hst
    have hok : respOk r = true := by
      unfold respOk
      exact decide_eq_true hst
    refine ⟨?_, ?_, ?_⟩
    · intro elems hj
      simp only [get_faculty_data, htok, Bool.not_true, Bool.false_eq_true, if_false,
        hr, hok, if_true, hj, pyLen]
    · intro entries hj
      simp only [get_faculty_data, htok, Bool.not_true, Bool.false_eq_true, if_false,
        hr, hok, if_true, hj, pyLen]
    · intro hj
      simp only [get_faculty_data, htok, Bool.not_true, Bool.false_eq_true, if_false,
        hr, hok, if_true, hj]
  · intro hr
    simp only [get_faculty_data, htok, Bool.not_true, Bool.false_eq_true, if_false, hr]

theorem faculty_data_list_cases_witness :
    get_faculty_data (some "token") (fun _ => ReqResult.exn) = Except.ok [] :=
  (faculty_data_list_cases (some "token") (fun _ => ReqResult.exn) rfl).2 rfl

-- Decomposition of build_node_data used to reason about single payload keys.

/-- The single optional-field entry that the loop of lines 161-163 inserts
for a mapped field, as a zero-or-one element list. -/
def optEntry (f : String → Option JSON) (src dst : String) : List (String × JSON) :=
  if truthyOpt (f src) then
    [(dst, JSON.arr [JSON.obj [("value", (f src).getD JSON.null)]])]
  else []

/-- The body entry that lines 146-150 insert when bio is truthy, as a
zero-or-one element list. -/
def bodyPart (f : String → Option JSON) : List (String × JSON) :=
  if truthyOpt (f "bio") then
    [("body", JSON.arr [JSON.obj
      [("value", (f "bio").getD JSON.null), ("format", JSON.str "basic_html")]])]
  else []

theorem build_node_data_shape (ct : String) (f : String → Option JSON) :
    build_node_data ct f =
      [("type", JSON.arr [JSON.obj [("target_id", JSON.str ct)]]),
       ("title", JSON.arr [JSON.obj
         [("value", (f "name").getD (JSON.str "Unknown Faculty"))]]),
       ("status", JSON.arr [JSON.obj [("value", JSON.bool true)]])] ++
      bodyPart f ++ optEntry f "email" "field_email" ++
      optEntry f "phone" "field_phone" ++
      optEntry f "department" "field_department" ++
      optEntry f "title" "field_job_title" ++
      optEntry f "office" "field_office_location" := by
  unfold build_node_data field_mapping bodyPart optEntry
  by_cases h1 : truthyOpt (f "bio") <;>
    by_cases h2 : truthyOpt (f "email") <;>
      by_cases h3 : truthyOpt (f "phone") <;>
        by_cases h4 : truthyOpt (f "department") <;>
          by_cases h5 : truthyOpt (f "title") <;>
            by_cases h6 : truthyOpt (f "office") <;>
              simp [h1, h2, h3, h4, h5, h6, List.foldl]

theorem lookupKey_append (k : String) (l1 l2 : List (String × JSON)) :
    lookupKey k (l1 ++ l2) = Option.or (lookupKey k l1) (lookupKey k l2) := by
  induction l1 with
  | nil => rfl
  | cons hd tl ih =>
    obtain ⟨k2, v⟩ := hd
    by_cases h : k2 = k
    · simp [lookupKey, h]
    · simp [lookupKey, h, ih]

theorem lookupKey_optEntry_ne (f : String → Option JSON) (src dst k : String)
    (h : ¬(dst = k)) : lookupKey k (optEntry f src dst) = none := by
  unfold optEntry
  by_cases hc : truthyOpt (f src) <;> simp [hc, lookupKey, h]

theorem lookupKey_optEntry_self (f : String → Option JSON) (src dst : String) :
    lookupKey dst (optEntry f src dst) =
      if truthyOpt (f src) then
        some (JSON.arr [JSON.obj [("value", (f src).getD JSON.null)]])
      else none := by
  unfold optEntry
  by_cases hc : truthyOpt (f src) <;> simp [hc, lookupKey]

theorem lookupKey_bodyPart_ne (f : String → Option JSON) (k : String)
    (h : ¬("body" = k)) : lookupKey k (bodyPart f) = none := by
  unfold bodyPart
  by_cases hc : truthyOpt (f "bio") <;> simp [hc, lookupKey, h]

theorem optOr_none (x : Option JSON) : Option.or x none = x := by
  cases x <;> rfl

theorem optOr_left_none (x : Option JSON) : Option.or none x = x := rfl

theorem truthy_str_iff (f : String → Option JSON) (k : String)
    (h : f k = none ∨ ∃ s, f k = some (JSON.str s)) :
    (truthyOpt (f k) = true) ↔ ∃ s, f k = some (JSON.str s) ∧ s ≠ "" := by
  rcases h with h | ⟨s, h⟩ <;> rw [h] <;> simp [truthyOpt, jsonTruthy]

/-- C5: a record whose name is a non-empty string (and whose mapped
optional fields, when present, hold strings) passes validation, and the
node payload titles the node with the record's name, carries the
configured content-type identifier, sets the published flag to true, and
contains each mapped optional field (and body for bio) exactly when the
source value is present and non-empty — an empty string is omitted. -/
theorem transformer_payload_spec (ct nm : String) (f : String → Option JSON)
    (hname : f "name" = some (JSON.str nm)) (hne : nm ≠ "")
    (hstr : ∀ k, k ∈ ["bio", "email", "phone", "department", "title", "office"] →
      f k = none ∨ ∃ s, f k = some (JSON.str s)) :
    validate_faculty_data f = true
  ∧ lookupKey "title" (build_node_data ct f) =
      some (JSON.arr [JSON.obj [("value", JSON.str nm)]])
  ∧ lookupKey "type" (build_node_data ct f) =
      some (JSON.arr [JSON.obj [("target_id", JSON.str ct)]])
  ∧ lookupKey "status" (build_node_data ct f) =
      some (JSON.arr [JSON.obj [("value", JSON.bool true)]])
  ∧ (∀ src dst, (src, dst) ∈ field_mapping →
      ((lookupKey dst (build_node_data ct f)).isSome = true ↔
        ∃ s, f src = some (JSON.str s) ∧ s ≠ ""))
  ∧ ((lookupKey "body" (build_node_data ct f)).isSome = true ↔
      ∃ s, f "bio" = some (JSON.str s) ∧ s ≠ "") := by
  refine ⟨?_, ?_, ?_, ?_, ?_, ?_⟩
  · unfold validate_faculty_data
    rw [hname]
    simp [truthyOpt, jsonTruthy, hne]
  · rw [build_node_data_shape]
    simp [lookupKey_append, lookupKey, hname]
  · rw [build_node_data_shape]
    simp [lookupKey_append, lookupKey]
  · rw [build_node_data_shape]
    simp [lookupKey_append, lookupKey]
  · intro src dst hmem
    simp only [field_mapping, List.mem_cons, List.not_mem_nil, or_false,
      Prod.mk.injEq] at hmem
    rcases hmem with ⟨rfl, rfl⟩ | ⟨rfl, rfl⟩ | ⟨rfl, rfl⟩ | ⟨rfl, rfl⟩ | ⟨rfl, rfl⟩
    · rw [← truthy_str_iff f "email" (hstr "email" (by simp)), build_node_data_shape]
      by_cases htf : truthyOpt (f "email") <;>
        simp [lookupKey_append, lookupKey, lookupKey_bodyPart_ne,
          lookupKey_optEntry_ne, lookupKey_optEntry_self, optOr_none,
          optOr_left_none, htf]
    · rw [← truthy_str_iff f "phone" (hstr "phone" (by simp)), build_node_data_shape]
      by_cases htf : truthyOpt (f "phone") <;>
        simp [lookupKey_append, lookupKey, lookupKey_bodyPart_ne,
          lookupKey_optEntry_ne, lookupKey_optEntry_self, optOr_none,
          optOr_left_none, htf]
    · rw [← truthy_str_iff f "department" (hstr "department" (by simp)),
        build_node_data_shape]
      by_cases htf : truthyOpt (f "department") <;>
        simp [lookupKey_append, lookupKey, lookupKey_bodyPart_ne,
          lookupKey_optEntry_ne, lookupKey_optEntry_self, optOr_none,
          optOr_left_none, htf]
    · rw [← truthy_str_iff f "title" (hstr "title" (by simp)), build_node_data_shape]
      by_cases htf : truthyOpt (f "title") <;>
        simp [lookupKey_append, lookupKey, lookupKey_bodyPart_ne,
          lookupKey_optEntry_ne, lookupKey_optEntry_self, optOr_none,
          optOr_left_none, htf]
    · rw [← truthy_str_iff f "office" (hstr "office" (by simp)), build_node_data_shape]
      by_cases htf : truthyOpt (f "office") <;>
        simp [lookupKey_append, lookupKey, lookupKey_bodyPart_ne,
          lookupKey_optEntry_ne, lookupKey_optEntry_self, optOr_none,
          optOr_left_none, htf]
  · rw [← truthy_str_iff f "bio" (hstr "bio" (by simp)), build_node_data_shape]
    by_cases htf : truthyOpt (f "bio") <;>
      simp [lookupKey_append, lookupKey, bodyPart, lookupKey_optEntry_ne,
        optOr_none, optOr_left_none, htf]

def exRecord : List (String × JSON) :=
  [("name", JSON.str "Jane Doe"), ("bio", JSON.str "PhD"), ("email", JSON.str "")]

theorem transformer_payload_spec_witness :
    lookupKey "title" (build_node_data "faculty_profile" (fun k => lookupKey k exRecord)) =
      some (JSON.arr [JSON.obj [("value", JSON.str "Jane Doe")]])
  ∧ ((lookupKey "field_email"
        (build_node_data "faculty_profile" (fun k => lookupKey k exRecord))).isSome = true ↔
      ∃ s, lookupKey "email" exRecord = some (JSON.str s) ∧ s ≠ "") := by
  have h := transformer_payload_spec "faculty_profile" "Jane Doe"
    (fun k => lookupKey k exRecord) rfl (by decide)
    (by intro k hk; fin_cases hk <;> simp [exRecord, lookupKey])
  exact ⟨h.2.1, h.2.2.2.2.1 "email" "field_email" (by simp [field_mapping])⟩

-- Stepping lemmas for the per-record loop.

theorem recordsLoop_cons_err {ct : String} {nodeT : Nat → Nat → ReqResult}
    {i : Nat} {entries : List (String × JSON)} {rest : List JSON} {e : PyExn}
    (h : (create_drupal_node ct (fun k => lookupKey k entries) (nodeT i)).1 =
      Except.error e) :
    recordsLoop ct nodeT i (JSON.obj entries :: rest) =
      (Except.error e,
        (create_drupal_node ct (fun k => lookupKey k entries) (nodeT i)).2) := by
  simp only [recordsLoop, h]

theorem recordsLoop_cons_ok {ct : String} {nodeT : Nat → Nat → ReqResult}
    {i : Nat} {entries : List (String × JSON)} {rest : List JSON} {b : Bool}
    (h : (create_drupal_node ct (fun k => lookupKey k entries) (nodeT i)).1 =
      Except.ok b) :
    recordsLoop ct nodeT i (JSON.obj entries :: rest) =
      (match (recordsLoop ct nodeT (i + 1) rest).1 with
       | Except.error e => (Except.error e,
           (create_drupal_node ct (fun k => lookupKey k entries) (nodeT i)).2 +
             (recordsLoop ct nodeT (i + 1) rest).2)
       | Except.ok s => (Except.ok ((if b then 1 else 0) + s),
           (create_drupal_node ct (fun k => lookupKey k entries) (nodeT i)).2 +
             (recordsLoop ct nodeT (i + 1) rest).2)) := by
  simp only [recordsLoop, h]

theorem recordsLoop_successes_le (ct : String) (nodeT : Nat → Nat → ReqResult) :
    ∀ l i s, (recordsLoop ct nodeT i l).1 = Except.ok s → s ≤ l.length := by
  intro l
  induction l with
  | nil =>
    intro i s h
    simp only [recordsLoop] at h
    simp at h
    omega
  | cons a rest ih =>
    intro i s h
    cases a with
    | obj entries =>
      cases hs : (create_drupal_node ct (fun k => lookupKey k entries) (nodeT i)).1 with
      | error e =>
        rw [recordsLoop_cons_err hs] at h
        simp at h
      | ok b =>
        rw [recordsLoop_cons_ok hs] at h
        cases hr : (recordsLoop ct nodeT (i + 1) rest).1 with
        | error e =>
          rw [hr] at h
          simp at h
        | ok s2 =>
          rw [hr] at h
          simp at h
          have hle := ih (i + 1) s2 hr
          simp [List.length_cons]
          cases b <;> simp at h <;> omega
    | null => simp [recordsLoop] at h
    | bool b2 => simp [recordsLoop] at h
    | num n2 => simp [recordsLoop] at h
    | str s2 => simp [recordsLoop] at h
    | arr l2 => simp [recordsLoop] at h

/-- C7: a record whose name is missing or empty is rejected with no HTTP
call: create_drupal_node returns failure after zero transport invocations,
the per-record loop continues with the remaining records unchanged (the
record adds nothing to the success count and nothing to the HTTP call
count), and since the total grows by one, the failure count
(total minus successes) grows by exactly one. -/
theorem invalid_record_skipped_without_call (ct : String)
    (nodeT : Nat → Nat → ReqResult) (i : Nat) (entries : List (String × JSON))
    (rest : List JSON)
    (hname : truthyOpt (lookupKey "name" entries) = false) :
    create_drupal_node ct (fun k => lookupKey k entries) (nodeT i) = (Except.ok false, 0)
  ∧ recordsLoop ct nodeT i (JSON.obj entries :: rest) = recordsLoop ct nodeT (i + 1) rest
  ∧ (∀ s n, recordsLoop ct nodeT (i + 1) rest = (Except.ok s, n) →
      (JSON.obj entries :: rest).length - s = (rest.length - s) + 1) := by
  have hv : validate_faculty_data (fun k => lookupKey k entries) = false := hname
  have hc : create_drupal_node ct (fun k => lookupKey k entries) (nodeT i) =
      (Except.ok false, 0) := create_node_eq_invalid hv
  refine ⟨hc, ?_, ?_⟩
  · have h1 : (create_drupal_node ct (fun k => lookupKey k entries) (nodeT i)).1 =
        Except.ok false := by rw [hc]
    rw [recordsLoop_cons_ok h1, hc]
    rcases recordsLoop ct nodeT (i + 1) rest with ⟨p1, p2⟩
    cases p1 <;> simp
  · intro s n h
    have hle : s ≤ rest.length :=
      recordsLoop_successes_le ct nodeT rest (i + 1) s (by rw [h])
    simp [List.length_cons]
    omega

theorem invalid_record_skipped_without_call_witness :
    create_drupal_node "faculty_profile" (fun k => lookupKey k []) (wTrivial.nodeT 0)
      = (Except.ok false, 0)
  ∧ recordsLoop "faculty_profile" wTrivial.nodeT 0 [JSON.obj []]
      = recordsLoop "faculty_profile" wTrivial.nodeT 1 [] :=
  let h := invalid_record_skipped_without_call "faculty_profile" wTrivial.nodeT 0 [] [] rfl
  ⟨h.1, h.2.1⟩

/-- C8: if either authentication step ends in retry exhaustion,
authenticate_drupal returns the absent session (None token and None
cookies), and an absent session makes main abort with zero node-creation
HTTP calls — no node-create request happens without an established
session. -/
theorem auth_failure_no_node_calls (env : Env) (w : World) :
    (((make_request_with_retry w.loginT).1 = none ∨
        (make_request_with_retry w.tokenT).1 = none) →
      authenticate_drupal w.loginT w.tokenT = (none, none))
  ∧ (authenticate_drupal w.loginT w.tokenT = (none, none) → (main env w).2 = 0) := by
  constructor
  · intro h
    cases hl : (make_request_with_retry w.loginT).1 with
    | none => simp only [authenticate_drupal, hl]
    | some rl =>
      cases ho : respOk rl with
      | false => simp only [authenticate_drupal, hl, ho, Bool.false_eq_true, if_false]
      | true =>
        rcases h with h | h
        · rw [hl] at h
          exact absurd h (by simp)
        · simp only [authenticate_drupal, hl, ho, if_true, h]
  · intro h
    have h1 : (authenticate_drupal w.loginT w.tokenT).1 = none := by rw [h]
    cases hv : validate_config env with
    | false => simp [main, hv]
    | true =>
      cases hd : get_faculty_data env.FACULTY_API_TOKEN w.facultyT with
      | error e => simp [main, hv, hd]
      | ok fl =>
        cases he : fl.isEmpty with
        | true => simp [main, hv, hd, he]
        | false => simp [main, hv, hd, he, h1]

def wLoginFail : World :=
  ⟨fun _ => ReqResult.resp facultyListResp, fun _ => ReqResult.exn,
   fun _ => ReqResult.resp tokenResp, fun _ _ => ReqResult.resp goodCreateResp⟩

theorem auth_failure_no_node_calls_witness :
    authenticate_drupal wLoginFail.loginT wLoginFail.tokenT = (none, none)
  ∧ (main envOk wLoginFail).2 = 0 :=
  let h := auth_failure_no_node_calls envOk wLoginFail
  let ha := h.1 (Or.inl rfl)
  ⟨ha, h.2 ha⟩

/-- C10: both authentication calls succeed but the token body is blank
(empty or whitespace only): authenticate_drupal returns the empty string
as the CSRF token together with the login cookies, and main treats the
falsy token as authentication failure, aborting the run before any
node-creation call. -/
theorem blank_token_aborts_run (env : Env) (w : World) (rl rt : Response)
    (fl : List JSON)
    (hl : (make_request_with_retry w.loginT).1 = some rl) (hlok : rl.status < 400)
    (ht : (make_request_with_retry w.tokenT).1 = some rt) (htok : rt.status < 400)
    (hblank : pyStrip rt.text = "")
    (hconf : validate_config env = true)
    (hdata : get_faculty_data env.FACULTY_API_TOKEN w.facultyT = Except.ok fl)
    (hne : fl ≠ []) :
    authenticate_drupal w.loginT w.tokenT = (some "", some rl.cookies)
  ∧ main env w = (RunOutcome.authAbort, 0) := by
  have hok1 : respOk rl = true := decide_eq_true hlok
  have hok2 : respOk rt = true := decide_eq_true htok
  have hauth : authenticate_drupal w.loginT w.tokenT = (some "", some rl.cookies) := by
    simp only [authenticate_drupal, hl, hok1, if_true, ht, hok2, hblank]
  have hemp : fl.isEmpty = false := by
    cases fl with
    | nil => exact absurd rfl hne
    | cons a l => rfl
  refine ⟨hauth, ?_⟩
  simp [main, hconf, hdata, hemp, hauth]

def wsTokenResp : Response := ⟨200, "  ", none, []⟩

def wBlankToken : World :=
  ⟨fun _ => ReqResult.resp facultyListResp, fun _ => ReqResult.resp loginResp,
   fun _ => ReqResult.resp wsTokenResp, fun _ _ => ReqResult.resp goodCreateResp⟩

theorem blank_token_aborts_run_witness :
    authenticate_drupal wBlankToken.loginT wBlankToken.tokenT
      = (some "", some loginResp.cookies)
  ∧ main envOk wBlankToken = (RunOutcome.authAbort, 0) :=
  blank_token_aborts_run envOk wBlankToken loginResp wsTokenResp
    [JSON.obj janeEntries, JSON.obj johnEntries]
    rfl (by decide) rfl (by decide) rfl rfl rfl (List.cons_ne_nil _ _)

end FacultyPipeline
